import Mathlib

/-!
Shallow embedding of the linak_bt_desk control core
(src/linak_dpg_bt/linak_device.py and src/linak_dpg_bt/connection.py).

Python mutable object state becomes explicit state passing; methods that can
raise become functions into `Except PyError`; transport side effects are
returned as an explicit list of `TransportOp`.  The helper modules
desk_position.py, dpg_command.py, height_speed.py and constants.py are not
part of src/; the definitions taken from them are modelled from the spec and
marked as such in their doc comments.
-/

namespace LinakBtDesk

/-- Exceptions that the embedded code can raise.  `dpgCommandRead` is the
DPGCommandReadError class of linak_device.py, `wrongFavoriteNumber` the
(declared but never raised) WrongFavoriteNumber class, `attributeError` is
Python AttributeError (attribute access on None), `indexError` is Python
IndexError, and `structBadLength` is the decode failure of
HeightSpeed.from_bytes on a payload that is not exactly 4 bytes. -/
inductive PyError
  | dpgCommandRead
  | wrongFavoriteNumber
  | attributeError
  | indexError
  | structBadLength
deriving DecidableEq

/-- Transport-level side effects issued through BTLEConnection. -/
inductive TransportOp
  | write (handle : Nat) (value : List Nat)
  | read (handle : Nat)
  | connect
  | disconnect
deriving DecidableEq

/-- DPG command handle, from connection.py. -/
def DPG_COMMAND_HANDLE : Nat := 0x0014

/-- Modelled from the spec: the telemetry (reference-output) handle comes from
constants.py, which is absent from src/; the concrete value is irrelevant to
the claims, only that it is a fixed handle distinct from the DPG handle. -/
def REFERENCE_OUTPUT_HANDLE : Nat := 0x001b

/-- Modelled from the spec: the move-command handle from the absent
constants.py; write-only, fire-and-forget. -/
def MOVE_TO_HANDLE : Nat := 0x0025

/-- Hard-cutoff timer duration in seconds, from linak_device.py. -/
def MOVE_TIMER_TIMEOUT : Nat := 30

/-- Configured device minimum height in cm, from linak_device.py. -/
def HEIGHT_MIN : ℚ := 0

/-- Configured device maximum height in cm, from linak_device.py. -/
def HEIGHT_MAX : ℚ := 64

/-- Modelled from the spec: the fixed linear raw-per-cm conversion factor K of
desk_position.py, which is absent from src/ (raw = round(cm * K),
cm = raw / K). -/
def POSITION_K : ℚ := 100

/-- A desk position in the device's native raw unit (DeskPosition of the
absent desk_position.py; raw is a signed integer). -/
structure DeskPosition where
  raw : Int
deriving DecidableEq

/-- Modelled from the spec: centimeter view of a raw position, cm = raw / K. -/
def DeskPosition.cm (p : DeskPosition) : ℚ := (p.raw : ℚ) / POSITION_K

/-- Rounding of a rational to the nearest integer (floor of q + 1/2),
computed on the numerator and denominator so that it evaluates by kernel
reduction. -/
def ratRound (q : ℚ) : Int := (2 * q.num + q.den).ediv (2 * q.den)

/-- Modelled from the spec: raw = round(cm * K). -/
def DeskPosition.raw_from_cm (c : ℚ) : Int := ratRound (c * POSITION_K)

/-- Modelled from the spec: move-command payload is the raw little-endian
signed 16-bit target, two bytes. -/
def DeskPosition.bytes (p : DeskPosition) : List Nat :=
  let u := (p.raw % 65536).toNat
  [u % 256, u / 256]

/-- Modelled from the spec: decode a little-endian signed 16-bit integer from
two bytes (the struct unpack of the absent height_speed.py / dpg_command.py). -/
def int16FromBytes (lo hi : Nat) : Int :=
  let u := (lo % 256) + 256 * (hi % 256)
  if u < 32768 then (u : Int) else (u : Int) - 65536

/-- Modelled from the spec: the fixed scale factor converting the raw speed
integer to its floating-point magnitude (height_speed.py is absent from
src/); floats are modelled as rationals. -/
def SPEED_SCALE : ℚ := 1 / 1000

/-- Height/speed telemetry sample (HeightSpeed of the absent height_speed.py);
speed_parsed is the converted speed magnitude (speed.parsed in the source). -/
structure HeightSpeed where
  height : DeskPosition
  speed_parsed : ℚ
deriving DecidableEq

/-- Modelled from the spec: HeightSpeed.from_bytes fails unless the payload is
exactly 4 bytes, then decodes two little-endian signed 16-bit fields; the
speed field is converted to a magnitude by the fixed scale factor. -/
def HeightSpeed.from_bytes (data : List Nat) : Except PyError HeightSpeed :=
  match data with
  | [b0, b1, b2, b3] =>
      .ok ⟨⟨int16FromBytes b0 b1⟩, |(int16FromBytes b2 b3 : ℚ)| * SPEED_SCALE⟩
  | _ => .error .structBadLength

/-- Memory-position reply command type code: the source comment in
linak_device.py records that the DPG1M replies to queries for both memory
positions with the same command type 0x07. -/
def MEMORY_REPLY_TYPE : Nat := 0x07

/-- Modelled from the spec: the desk-offset reply type code of the absent
dpg_command.py; a fixed code distinct from the memory reply code. -/
def DESK_OFFSET_REPLY_TYPE : Nat := 0x81

/-- Decoded DPG notification (DPGCommand.build_command result classes of the
absent dpg_command.py): DeskOffsetCommand, MemorySetting2Command, or any
other command class the handler ignores. -/
inductive DPGCommand
  | deskOffsetCommand (offset : DeskPosition)
  | memorySetting2Command (offset : DeskPosition)
  | ignored
deriving DecidableEq

/-- Modelled from the spec: DPGCommand.build_command dispatches on payload
byte 1 to a reply variant carrying a little-endian signed integer decoded at
a fixed offset (taken here as bytes 2..3); unknown type codes decode to a
generic ignored variant. -/
def DPGCommand.build_command (data : List Nat) : DPGCommand :=
  match data with
  | _ :: t :: lo :: hi :: _ =>
      if t = DESK_OFFSET_REPLY_TYPE then .deskOffsetCommand ⟨int16FromBytes lo hi⟩
      else if t = MEMORY_REPLY_TYPE then .memorySetting2Command ⟨int16FromBytes lo hi⟩
      else .ignored
  | _ => .ignored

/-- State of the hard-cutoff threading.Timer object held in _stop_timer:
either still armed with its duration in seconds, or cancelled. -/
inductive TimerState
  | armed (duration : Nat)
  | cancelled
deriving DecidableEq

/-- The mutable fields of the LinakDesk object (linak_device.py __init__).
Field names drop the Python leading underscore. -/
structure LinakDesk where
  name : Option (List Nat)
  desk_offset : Option DeskPosition
  fav_position_1 : Option DeskPosition
  fav_position_2 : Option DeskPosition
  height_speed : Option HeightSpeed
  target : Option DeskPosition
  running : Bool
  manual_height_change : Bool
  stop_timer : Option TimerState
deriving DecidableEq

/-- The field values set by LinakDesk.__init__: every data field None, not
running, no manual change, and — decisively for stop_movement — the
_stop_timer attribute initialised to None. -/
def LinakDesk.init : LinakDesk :=
  ⟨none, none, none, none, none, none, false, false, none⟩

/-- Embedding of _wait_for_variable: the accessor returns the value as soon
as the field is set; with no concurrent writer in the embedding, an unset
field stays unset through the 100 polls of 0.2 s, so the call ends in the
DPGCommandReadError raised after the loop. -/
def wait_for_variable {α : Type} (v : Option α) : Except PyError α :=
  match v with
  | some x => .ok x
  | none => .error .dpgCommandRead

/-- stop_movement from linak_device.py: sets _running and
_manual_height_change to False, then calls _stop_timer.cancel().  When
_stop_timer is still the None from __init__, the cancel() attribute access
raises AttributeError (the two flag writes that precede the raise are not
retained by the Except embedding; no claim depends on them). -/
def stop_movement (s : LinakDesk) : Except PyError LinakDesk :=
  match s.stop_timer with
  | none => .error .attributeError
  | some _ =>
      .ok { s with running := false, manual_height_change := false,
                   stop_timer := some .cancelled }

/-- The callback the hard-cutoff Timer was armed with: _move_to_raw builds
Timer(MOVE_TIMER_TIMEOUT, self.stop_movement), so expiry runs stop_movement. -/
def stop_timer_expire (s : LinakDesk) : Except PyError LinakDesk :=
  stop_movement s

/-- _move_to_raw from linak_device.py.  If a movement is running it first
calls stop_movement; then reads the cached height via the height_speed
property (_wait_for_variable); a delta below 10 raw units returns without
further effect; otherwise it sets the target, sets _running, arms a fresh
30 s hard-cutoff timer and starts the polling thread.  The returned Bool
records whether the polling thread (_process_movement) was started; the
function itself issues no transport operation. -/
def move_to_raw (raw_value : Int) (s : LinakDesk) :
    Except PyError (LinakDesk × Bool) :=
  match (if s.running then stop_movement s else .ok s) with
  | .error e => .error e
  | .ok s1 =>
    match wait_for_variable s1.height_speed with
    | .error e => .error e
    | .ok hs =>
      if (raw_value - hs.height.raw).natAbs < 10 then
        .ok (s1, false)
      else
        .ok ({ s1 with target := some ⟨raw_value⟩, running := true,
                       stop_timer := some (.armed MOVE_TIMER_TIMEOUT) },
             true)

/-- move_to_cm from linak_device.py: converts cm minus the desk offset to a
raw value and delegates to _move_to_raw.  The direct _desk_offset.cm access
raises AttributeError while the offset is still None. -/
def move_to_cm (cm : ℚ) (s : LinakDesk) : Except PyError (LinakDesk × Bool) :=
  match s.desk_offset with
  | none => .error .attributeError
  | some off => move_to_raw (DeskPosition.raw_from_cm (cm - off.cm)) s

/-- move_down from linak_device.py: sets _manual_height_change, then moves to
the offset plus the configured minimum. -/
def move_down (s : LinakDesk) : Except PyError (LinakDesk × Bool) :=
  let s1 := { s with manual_height_change := true }
  match s1.desk_offset with
  | none => .error .attributeError
  | some off => move_to_cm (off.cm + HEIGHT_MIN) s1

/-- move_up from linak_device.py: sets _manual_height_change, then moves to
the offset plus the configured maximum. -/
def move_up (s : LinakDesk) : Except PyError (LinakDesk × Bool) :=
  let s1 := { s with manual_height_change := true }
  match s1.desk_offset with
  | none => .error .attributeError
  | some off => move_to_cm (off.cm + HEIGHT_MAX) s1

/-- move_to_fav from linak_device.py: slots 1 and 2 resolve the stored
favorite through the blocking property and move to its raw value; any other
slot raises DPGCommandReadError (the shared exception class — the dedicated
WrongFavoriteNumber class exists in the file but is never raised). -/
def move_to_fav (fav : Int) (s : LinakDesk) :
    Except PyError (LinakDesk × Bool) :=
  if fav = 1 then
    match wait_for_variable s.fav_position_1 with
    | .error e => .error e
    | .ok p => move_to_raw p.raw s
  else if fav = 2 then
    match wait_for_variable s.fav_position_2 with
    | .error e => .error e
    | .ok p => move_to_raw p.raw s
  else .error .dpgCommandRead

/-- target_height property of linak_device.py: (None, None) when not running;
while running it compares the target raw with current_height (which, while
running, is the cached height_speed sample) and reports the cm target only
when the move was not manual. -/
def target_height (s : LinakDesk) :
    Except PyError (Option ℚ × Option Bool) :=
  if s.running then
    match s.target with
    | none => .error .attributeError
    | some t =>
      match wait_for_variable s.height_speed with
      | .error e => .error e
      | .ok hs =>
        let dir := decide (t.raw > hs.height.raw)
        if s.manual_height_change then .ok (none, some dir)
        else .ok (some t.cm, some dir)
  else .ok (none, none)

/-- _query_height_speed from linak_device.py: one characteristic read of the
reference-output handle, decoded by HeightSpeed.from_bytes, stored in
_height_speed.  The bytes the transport returns are a parameter of the
embedding. -/
def query_height_speed (readBytes : List Nat) (s : LinakDesk) :
    Except PyError (LinakDesk × List TransportOp) :=
  match HeightSpeed.from_bytes readBytes with
  | .error e => .error e
  | .ok hs =>
      .ok ({ s with height_speed := some hs },
           [.read REFERENCE_OUTPUT_HANDLE])

/-- current_height property of linak_device.py: issues a fresh telemetry read
only when no movement is running, then returns height_speed.height through
the blocking property.  Returns the height, the resulting state, and the
transport operations performed. -/
def current_height (readBytes : List Nat) (s : LinakDesk) :
    Except PyError (DeskPosition × LinakDesk × List TransportOp) :=
  if s.running then
    match wait_for_variable s.height_speed with
    | .error e => .error e
    | .ok hs => .ok (hs.height, s, [])
  else
    match query_height_speed readBytes s with
    | .error e => .error e
    | .ok (s1, ops) =>
      match wait_for_variable s1.height_speed with
      | .error e => .error e
      | .ok hs => .ok (hs.height, s1, ops)

/-- _handle_dpg_notification from linak_device.py: raises
DPGCommandReadError when the first payload byte is not 0x01 (before touching
any field); otherwise builds the command and dispatches: a DeskOffsetCommand
sets _desk_offset; a MemorySetting2Command fills _fav_position_1 when it is
still unset and otherwise writes _fav_position_2; every other command class
leaves the state unchanged. -/
def handle_dpg_notification (data : List Nat) (s : LinakDesk) :
    Except PyError LinakDesk :=
  match data with
  | [] => .error .indexError
  | b0 :: _ =>
    if b0 ≠ 0x1 then .error .dpgCommandRead
    else
      match DPGCommand.build_command data with
      | .deskOffsetCommand off => .ok { s with desk_offset := some off }
      | .memorySetting2Command off =>
          if s.fav_position_1 = none then
            .ok { s with fav_position_1 := some off }
          else
            .ok { s with fav_position_2 := some off }
      | .ignored => .ok s

/-- _handle_reference_notification from linak_device.py: decodes the payload
into _height_speed; a decode failure propagates. -/
def handle_reference_notification (data : List Nat) (s : LinakDesk) :
    Except PyError LinakDesk :=
  match HeightSpeed.from_bytes data with
  | .error e => .error e
  | .ok hs => .ok { s with height_speed := some hs }

/-- Sequential delivery of several DPG notification payloads to
_handle_dpg_notification; an exception from one delivery propagates. -/
def notifySeq (payloads : List (List Nat)) (s : LinakDesk) :
    Except PyError LinakDesk :=
  match payloads with
  | [] => .ok s
  | d :: rest =>
    match handle_dpg_notification d s with
    | .error e => .error e
    | .ok s1 => notifySeq rest s1

/-- BTLEConnection.handleNotification from connection.py, with the callbacks
table built in LinakDesk.__init__ (reference-output handle and DPG command
handle).  There is no try/except around the callback: any exception it
raises propagates to the transport delivery context. -/
def handleNotification (s : LinakDesk) (handle : Nat) (data : List Nat) :
    Except PyError LinakDesk :=
  if handle = REFERENCE_OUTPUT_HANDLE then handle_reference_notification data s
  else if handle = DPG_COMMAND_HANDLE then handle_dpg_notification data s
  else .ok s

/-- The notification pump inside bluepy's waitForNotifications: each pending
(handle, data) pair is delivered through handleNotification; an exception
raised by a callback propagates out of the wait. -/
def waitForNotifications (pending : List (Nat × List Nat)) (s : LinakDesk) :
    Except PyError LinakDesk :=
  match pending with
  | [] => .ok s
  | (h, d) :: rest =>
    match handleNotification s h d with
    | .error e => .error e
    | .ok s1 => waitForNotifications rest s1

/-- BTLEConnection.make_request from connection.py with a timeout given: one
characteristic write, then the notification wait; the except clause
re-raises transport exceptions only, so a callback exception surfacing from
the wait aborts the request. -/
def make_request (handle : Nat) (value : List Nat)
    (pending : List (Nat × List Nat)) (s : LinakDesk) :
    Except PyError (LinakDesk × List TransportOp) :=
  match waitForNotifications pending s with
  | .error e => .error e
  | .ok s1 => .ok (s1, [.write handle value])

/-- Connection-holding state of BTLEConnection: conn records whether
self._conn currently holds a peripheral (is not None). -/
structure BTLEConnection where
  conn : Bool
deriving DecidableEq

/-- BTLEConnection.disconnect: only when a peripheral is held does it call
the transport disconnect and reset _conn to None; otherwise nothing. -/
def BTLEConnection.disconnect (c : BTLEConnection) :
    BTLEConnection × List TransportOp :=
  if c.conn then (⟨false⟩, [.disconnect]) else (c, [])

/-- BTLEConnection.__enter__: connects only when _conn is None (the
connection is reused across with-blocks); the retry-once path is collapsed
to a successful connect, which no claim depends on. -/
def BTLEConnection.enterContext (c : BTLEConnection) :
    BTLEConnection × List TransportOp :=
  if c.conn then (c, []) else (⟨true⟩, [.connect])

/-- BTLEConnection.__exit__: calls disconnect only when the with-block is
exiting with an exception; on a normal return the connection is left open. -/
def BTLEConnection.exitContext (c : BTLEConnection) (exc : Option PyError) :
    BTLEConnection × List TransportOp :=
  match exc with
  | some _ => c.disconnect
  | none => (c, [])

/-- BTLEConnection.__del__: the destructor calls disconnect. -/
def BTLEConnection.delDunder (c : BTLEConnection) :
    BTLEConnection × List TransportOp :=
  c.disconnect

/-- _process_movement from linak_device.py, the polling loop run on the
background thread.  Each iteration checks _running, sends the move command
(_send_move_to writes _target.bytes to the move handle), sleeps, re-reads
telemetry (the successive payloads the transport returns are the parameter),
and stops the movement once the decoded speed magnitude drops below 0.001.
An empty payload list models the loop still in flight. -/
def process_movement (payloads : List (List Nat)) (s : LinakDesk) :
    Except PyError (LinakDesk × List TransportOp) :=
  match payloads with
  | [] => .ok (s, [])
  | p :: rest =>
    if s.running then
      match s.target with
      | none => .error .attributeError
      | some t =>
        match HeightSpeed.from_bytes p with
        | .error e => .error e
        | .ok hs =>
          let s1 := { s with height_speed := some hs }
          let ops := [TransportOp.write MOVE_TO_HANDLE t.bytes,
                      TransportOp.read REFERENCE_OUTPUT_HANDLE]
          if hs.speed_parsed < 1 / 1000 then
            match stop_movement s1 with
            | .error e => .error e
            | .ok s2 => .ok (s2, ops)
          else
            match process_movement rest s1 with
            | .error e => .error e
            | .ok (s2, more) => .ok (s2, ops ++ more)
    else .ok (s, [])

/-! Concrete states reused by counterexamples and witnesses. -/

/-- A desk in the middle of a movement toward raw position A at cached raw
height h: running, armed timer, cached telemetry. -/
def movingDesk (A h : Int) : LinakDesk :=
  { LinakDesk.init with target := some ⟨A⟩, running := true,
                        stop_timer := some (.armed MOVE_TIMER_TIMEOUT),
                        height_speed := some ⟨⟨h⟩, 1⟩ }

/-- An idle desk with offset 0 and cached raw height 50. -/
def idleDesk : LinakDesk :=
  { LinakDesk.init with desk_offset := some ⟨0⟩,
                        height_speed := some ⟨⟨50⟩, 1⟩ }

/-- A desk moving toward raw 100 (offset 0, cached raw height 50), used for
the superseding-request scenarios. -/
def superDesk : LinakDesk :=
  { LinakDesk.init with desk_offset := some ⟨0⟩,
                        height_speed := some ⟨⟨50⟩, 1⟩,
                        target := some ⟨100⟩, running := true,
                        stop_timer := some (.armed MOVE_TIMER_TIMEOUT) }

/-! Helper lemmas shared by the claim theorems. -/

lemma handle_dpg_mem (d : List Nat) (v : DeskPosition) (s : LinakDesk)
    (hh : d.head? = some 1)
    (hb : DPGCommand.build_command d = .memorySetting2Command v) :
    handle_dpg_notification d s =
      if s.fav_position_1 = none then .ok { s with fav_position_1 := some v }
      else .ok { s with fav_position_2 := some v } := by
  cases d with
  | nil => simp at hh
  | cons b0 rest =>
      simp only [List.head?_cons, Option.some.injEq] at hh
      subst hh
      simp [handle_dpg_notification, hb]

lemma move_to_raw_idle (s : LinakDesk) (hs_ : HeightSpeed) (B : Int)
    (hrun : s.running = false) (hh : s.height_speed = some hs_) :
    move_to_raw B s =
      if (B - hs_.height.raw).natAbs < 10 then .ok (s, false)
      else .ok ({ s with target := some ⟨B⟩, running := true,
                         stop_timer := some (.armed MOVE_TIMER_TIMEOUT) },
                true) := by
  simp [move_to_raw, wait_for_variable, hrun, hh]

lemma move_to_raw_running (s : LinakDesk) (hs_ : HeightSpeed) (B : Int)
    (ts : TimerState)
    (hrun : s.running = true) (ht : s.stop_timer = some ts)
    (hh : s.height_speed = some hs_) :
    move_to_raw B s =
      if (B - hs_.height.raw).natAbs < 10 then
        .ok ({ s with running := false, manual_height_change := false,
                      stop_timer := some .cancelled }, false)
      else
        .ok ({ s with manual_height_change := false, target := some ⟨B⟩,
                      running := true,
                      stop_timer := some (.armed MOVE_TIMER_TIMEOUT) },
             true) := by
  simp [move_to_raw, stop_movement, wait_for_variable, hrun, ht, hh]

lemma move_up_eq (s : LinakDesk) (off : DeskPosition)
    (hoff : s.desk_offset = some off) :
    move_up s =
      move_to_raw (DeskPosition.raw_from_cm (off.cm + HEIGHT_MAX - off.cm))
        { s with manual_height_change := true } := by
  simp [move_up, move_to_cm, hoff]

lemma move_down_eq (s : LinakDesk) (off : DeskPosition)
    (hoff : s.desk_offset = some off) :
    move_down s =
      move_to_raw (DeskPosition.raw_from_cm (off.cm + HEIGHT_MIN - off.cm))
        { s with manual_height_change := true } := by
  simp [move_down, move_to_cm, hoff]

lemma raw_from_cm_offset0_max :
    DeskPosition.raw_from_cm
      (DeskPosition.cm ⟨0⟩ + HEIGHT_MAX - DeskPosition.cm ⟨0⟩) = 6400 := by
  have hcm0 : DeskPosition.cm ⟨0⟩ = 0 := by
    norm_num [DeskPosition.cm, POSITION_K]
  have hsum : DeskPosition.cm ⟨0⟩ + HEIGHT_MAX - DeskPosition.cm ⟨0⟩ =
      (64 : ℚ) := by
    rw [hcm0]
    norm_num [HEIGHT_MAX]
  rw [hsum]
  unfold DeskPosition.raw_from_cm
  have h64 : (64 : ℚ) * POSITION_K = 6400 := by norm_num [POSITION_K]
  rw [h64]
  unfold ratRound
  rw [Rat.num_ofNat, Rat.den_ofNat]
  decide

lemma raw_from_cm_offset0_min :
    DeskPosition.raw_from_cm
      (DeskPosition.cm ⟨0⟩ + HEIGHT_MIN - DeskPosition.cm ⟨0⟩) = 0 := by
  have hcm0 : DeskPosition.cm ⟨0⟩ = 0 := by
    norm_num [DeskPosition.cm, POSITION_K]
  have hsum : DeskPosition.cm ⟨0⟩ + HEIGHT_MIN - DeskPosition.cm ⟨0⟩ =
      (0 : ℚ) := by
    rw [hcm0]
    norm_num [HEIGHT_MIN]
  rw [hsum]
  unfold DeskPosition.raw_from_cm
  have h0 : (0 : ℚ) * POSITION_K = 0 := by norm_num
  rw [h0]
  decide

lemma cm_raw_6400 : DeskPosition.cm ⟨6400⟩ = 64 := by
  norm_num [DeskPosition.cm, POSITION_K]

lemma target_height_running (s : LinakDesk) (t : DeskPosition)
    (hs_ : HeightSpeed)
    (hrun : s.running = true) (ht : s.target = some t)
    (hh : s.height_speed = some hs_) :
    target_height s =
      if s.manual_height_change then
        .ok (none, some (decide (t.raw > hs_.height.raw)))
      else
        .ok (some t.cm, some (decide (t.raw > hs_.height.raw))) := by
  simp [target_height, wait_for_variable, hrun, ht, hh]

/-- C1 counterexample: in a fresh round, delivering three memory-position
replies with decoded raw values 10, 20, 30 leaves favorite_1 = 10 but
favorite_2 = 30: the third reply is assigned to the second slot and
overwrites the value 20 that the claim says is kept. -/
theorem C1_counterexample :
    notifySeq [[1, 7, 10, 0], [1, 7, 20, 0], [1, 7, 30, 0]] LinakDesk.init =
      .ok { LinakDesk.init with fav_position_1 := some ⟨10⟩,
                                fav_position_2 := some ⟨30⟩ } ∧
    (some ⟨30⟩ : Option DeskPosition) ≠ some ⟨20⟩ := by
  exact ⟨rfl, by decide⟩

/-- C1 amended: in a fresh favorites round the first decoded memory-position
reply sets favorite_1 and the second sets favorite_2; a third reply in the
same round is not given a third slot — instead it overwrites favorite_2
(favorite_1 keeps its value). -/
theorem C1_fill_order (s : LinakDesk) (d1 d2 d3 : List Nat)
    (v1 v2 v3 : DeskPosition)
    (hf1 : s.fav_position_1 = none) (hf2 : s.fav_position_2 = none)
    (hh1 : d1.head? = some 1)
    (hb1 : DPGCommand.build_command d1 = .memorySetting2Command v1)
    (hh2 : d2.head? = some 1)
    (hb2 : DPGCommand.build_command d2 = .memorySetting2Command v2)
    (hh3 : d3.head? = some 1)
    (hb3 : DPGCommand.build_command d3 = .memorySetting2Command v3) :
    notifySeq [d1, d2] s =
      .ok { s with fav_position_1 := some v1, fav_position_2 := some v2 } ∧
    notifySeq [d1, d2, d3] s =
      .ok { s with fav_position_1 := some v1, fav_position_2 := some v3 } := by
  have e1 : handle_dpg_notification d1 s =
      .ok { s with fav_position_1 := some v1 } := by
    rw [handle_dpg_mem d1 v1 s hh1 hb1, if_pos hf1]
  have e2 : handle_dpg_notification d2 { s with fav_position_1 := some v1 } =
      .ok { s with fav_position_1 := some v1, fav_position_2 := some v2 } := by
    rw [handle_dpg_mem d2 v2 _ hh2 hb2]
    simp
  have e3 : handle_dpg_notification d3
        { s with fav_position_1 := some v1, fav_position_2 := some v2 } =
      .ok { s with fav_position_1 := some v1, fav_position_2 := some v3 } := by
    rw [handle_dpg_mem d3 v3 _ hh3 hb3]
    simp
  constructor
  · simp [notifySeq, e1, e2]
  · simp [notifySeq, e1, e2, e3]

/-- C1 witness: the fill-order theorem applied to the fresh initial state and
three concrete memory-position reply payloads. -/
theorem C1_witness :
    notifySeq [[1, 7, 10, 0], [1, 7, 20, 0]] LinakDesk.init =
      .ok { LinakDesk.init with fav_position_1 := some ⟨10⟩,
                                fav_position_2 := some ⟨20⟩ } :=
  (C1_fill_order LinakDesk.init [1, 7, 10, 0] [1, 7, 20, 0] [1, 7, 30, 0]
    ⟨10⟩ ⟨20⟩ ⟨30⟩ rfl rfl rfl rfl rfl rfl rfl rfl).1

/-- C2 counterexample: a DPG notification whose first byte is 0x00 is not
logged-and-dropped — the handler raises DPGCommandReadError (so its result
is not the unchanged state), and the exception propagates through
handleNotification into the in-flight make_request that was pumping
notifications, aborting it. -/
theorem C2_counterexample :
    handle_dpg_notification [0] LinakDesk.init = .error .dpgCommandRead ∧
    handle_dpg_notification [0] LinakDesk.init ≠ .ok LinakDesk.init ∧
    make_request DPG_COMMAND_HANDLE [1, 128]
        [(DPG_COMMAND_HANDLE, [0])] LinakDesk.init =
      .error .dpgCommandRead := by
  refine ⟨rfl, ?_, rfl⟩
  intro h
  exact Except.noConfusion h

/-- C2 amended: for every DPG notification payload whose first byte is not
0x01, the handler raises DPGCommandReadError before mutating any DeskState
field; the exception is not contained at the notification boundary — it
propagates through handleNotification and aborts an in-flight request that
is waiting on notification delivery. -/
theorem C2_bad_preamble (s : LinakDesk) (b0 : Nat) (rest : List Nat)
    (reqHandle : Nat) (reqValue : List Nat) (more : List (Nat × List Nat))
    (hb : b0 ≠ 1) :
    handle_dpg_notification (b0 :: rest) s = .error .dpgCommandRead ∧
    handleNotification s DPG_COMMAND_HANDLE (b0 :: rest) =
      .error .dpgCommandRead ∧
    make_request reqHandle reqValue ((DPG_COMMAND_HANDLE, b0 :: rest) :: more)
        s = .error .dpgCommandRead := by
  have e1 : handle_dpg_notification (b0 :: rest) s = .error .dpgCommandRead := by
    simp [handle_dpg_notification, hb]
  have e2 : handleNotification s DPG_COMMAND_HANDLE (b0 :: rest) =
      handle_dpg_notification (b0 :: rest) s := rfl
  refine ⟨e1, e2.trans e1, ?_⟩
  simp [make_request, waitForNotifications, e2, e1]

/-- C2 witness: the bad-preamble theorem applied to the concrete payload
[0x00] delivered into an in-flight request on the fresh state. -/
theorem C2_witness :
    make_request DPG_COMMAND_HANDLE [1, 128]
        [(DPG_COMMAND_HANDLE, [0x00])] LinakDesk.init =
      .error .dpgCommandRead :=
  (C2_bad_preamble LinakDesk.init 0 [] DPG_COMMAND_HANDLE [1, 128] []
    (by decide)).2.2

/-- C3 counterexample: with a movement toward raw 100 running at cached raw
height 50, move_to(55) (|55 - 50| < 10) stops the in-flight movement and
then returns without starting a new one: the result is running = false with
the stale target 100, not exactly one active movement targeting 55. -/
theorem C3_counterexample :
    (move_to_raw 55 (movingDesk 100 50)).toOption.map
        (fun r => (r.1.running, r.1.target, r.2)) =
      some (false, some ⟨100⟩, false) ∧
    (some (false, some ⟨100⟩, false) :
        Option (Bool × Option DeskPosition × Bool)) ≠
      some (true, some ⟨55⟩, true) := by
  exact ⟨rfl, by decide⟩

/-- C3 amended: move_to(B) while a movement toward A runs first stops the
in-flight movement (its timer is cancelled, manual flag cleared, state
Idle); then, when |B.raw - current.raw| is at least 10, exactly one movement
is active, targeting B with a fresh armed hard-cutoff timer; when the delta
is below 10 no movement is active at all. -/
theorem C3_supersede (s : LinakDesk) (hs_ : HeightSpeed) (A B : Int)
    (ts : TimerState)
    (hrun : s.running = true) (ht : s.stop_timer = some ts)
    (htgt : s.target = some ⟨A⟩) (hh : s.height_speed = some hs_) :
    ((B - hs_.height.raw).natAbs < 10 →
       move_to_raw B s =
         .ok ({ s with running := false, manual_height_change := false,
                       stop_timer := some .cancelled }, false)) ∧
    (10 ≤ (B - hs_.height.raw).natAbs →
       move_to_raw B s =
         .ok ({ s with manual_height_change := false, target := some ⟨B⟩,
                       running := true,
                       stop_timer := some (.armed MOVE_TIMER_TIMEOUT) },
              true)) := by
  rw [move_to_raw_running s hs_ B ts hrun ht hh]
  constructor
  · intro hlt
    rw [if_pos hlt]
  · intro hge
    rw [if_neg (not_lt.mpr hge)]

/-- C3 witness: the superseding-move theorem applied to a concrete moving
desk and the valid new target raw 200. -/
theorem C3_witness :
    move_to_raw 200 (movingDesk 100 50) =
      .ok ({ movingDesk 100 50 with manual_height_change := false,
                                    target := some ⟨200⟩, running := true,
                                    stop_timer :=
                                      some (.armed MOVE_TIMER_TIMEOUT) },
           true) :=
  (C3_supersede (movingDesk 100 50) ⟨⟨50⟩, 1⟩ 100 200
    (.armed MOVE_TIMER_TIMEOUT) rfl rfl rfl rfl).2 (by decide)

/-- C4: a running movement whose sampled telemetry speed magnitude is below
0.001 on a poll iteration is stopped on that check (running becomes false,
timer cancelled); the hard-cutoff timer armed by _move_to_raw carries the
30-second duration MOVE_TIMER_TIMEOUT, and its expiry action (stop_movement)
forces any state whose timer object exists to Idle. -/
theorem C4_stall_and_cutoff (s : LinakDesk) (t : DeskPosition)
    (ts : TimerState) (p : List Nat) (rest : List (List Nat))
    (hs_ : HeightSpeed)
    (hrun : s.running = true) (htgt : s.target = some t)
    (htimer : s.stop_timer = some ts)
    (hdec : HeightSpeed.from_bytes p = .ok hs_)
    (hslow : hs_.speed_parsed < 1 / 1000) :
    process_movement (p :: rest) s =
      .ok ({ s with height_speed := some hs_, running := false,
                    manual_height_change := false,
                    stop_timer := some .cancelled },
           [.write MOVE_TO_HANDLE t.bytes, .read REFERENCE_OUTPUT_HANDLE]) ∧
    MOVE_TIMER_TIMEOUT = 30 ∧
    (∀ v s0 s1, move_to_raw v s0 = .ok (s1, true) →
       s1.stop_timer = some (.armed MOVE_TIMER_TIMEOUT)) ∧
    (∀ s2 ts2, s2.stop_timer = some ts2 →
       stop_timer_expire s2 =
         .ok { s2 with running := false, manual_height_change := false,
                       stop_timer := some .cancelled }) := by
  refine ⟨?_, rfl, ?_, ?_⟩
  · have hslow' : hs_.speed_parsed < (1000 : ℚ)⁻¹ := by rwa [one_div] at hslow
    simp [process_movement, stop_movement, hrun, htgt, htimer, hdec, hslow']
  · intro v s0 s1 h
    unfold move_to_raw at h
    split at h
    · exact absurd h (by simp)
    · split at h
      · exact absurd h (by simp)
      · split at h
        · simp at h
        · simp only [Except.ok.injEq, Prod.mk.injEq] at h
          rw [← h.1]
  · intro s2 ts2 h2
    simp [stop_timer_expire, stop_movement, h2]

/-- C4 witness: the stall theorem applied to a concrete moving desk and the
telemetry payload 0x0A 0x00 0x00 0x00 (height raw 10, speed 0). -/
theorem C4_witness :
    (process_movement [[10, 0, 0, 0]] (movingDesk 100 50)).toOption.map
        (fun r => (r.1.running, r.1.stop_timer, r.2)) =
      some (false, some .cancelled,
            [.write MOVE_TO_HANDLE (DeskPosition.bytes ⟨100⟩),
             .read REFERENCE_OUTPUT_HANDLE]) := by
  rw [(C4_stall_and_cutoff (movingDesk 100 50) ⟨100⟩
        (.armed MOVE_TIMER_TIMEOUT) [10, 0, 0, 0] [] ⟨⟨10⟩, 0⟩
        rfl rfl rfl (by simp [HeightSpeed.from_bytes, int16FromBytes,
                              SPEED_SCALE])
        (by norm_num)).1]
  rfl

/-- C5: with the controller Idle, move_to with a target within 10 raw units
of the cached current height is a no-op: the state (target, running flag,
manual flag, timer) is returned unchanged and the polling thread — the only
writer of move commands — is not started. -/
theorem C5_noop_move (s : LinakDesk) (B : Int) (hs_ : HeightSpeed)
    (hrun : s.running = false) (hh : s.height_speed = some hs_)
    (hdelta : (B - hs_.height.raw).natAbs < 10) :
    move_to_raw B s = .ok (s, false) := by
  rw [move_to_raw_idle s hs_ B hrun hh, if_pos hdelta]

/-- C5 witness: the no-op theorem applied to the concrete idle desk at cached
raw height 50 and target raw 55. -/
theorem C5_witness : move_to_raw 55 idleDesk = .ok (idleDesk, false) :=
  C5_noop_move idleDesk 55 ⟨⟨50⟩, 1⟩ rfl rfl (by decide)

/-- C6: stop() is not safe before any movement has ever been started — on
the freshly constructed desk the _stop_timer attribute is still None, so
stop_movement reaches _stop_timer.cancel() and raises AttributeError
instead of completing. -/
theorem C6_stop_on_fresh_state :
    LinakDesk.init.stop_timer = none ∧
    LinakDesk.init.running = false ∧
    stop_movement LinakDesk.init = .error .attributeError :=
  ⟨rfl, rfl, rfl⟩

/-- C7 counterexample: a connected session that exits normally (no
exception) does not run disconnect — the __exit__ of the context manager
leaves the connection held and issues no transport disconnect. -/
theorem C7_counterexample :
    BTLEConnection.exitContext ⟨true⟩ none = (⟨true⟩, []) ∧
    (BTLEConnection.exitContext ⟨true⟩ none).1.conn = true ∧
    (BTLEConnection.exitContext ⟨true⟩ none).2 ≠ [TransportOp.disconnect] := by
  exact ⟨rfl, rfl, by decide⟩

/-- C7 amended: disconnect is idempotent and safe to call when not
connected; __exit__ runs disconnect only when the session exits with an
error (and then the link is released), while a normal return deliberately
keeps the connection open for reuse — only the destructor also calls
disconnect. -/
theorem C7_disconnect_discipline (c : BTLEConnection) (e : PyError) :
    (BTLEConnection.exitContext c (some e)).1.conn = false ∧
    BTLEConnection.exitContext c none = (c, []) ∧
    BTLEConnection.disconnect ⟨false⟩ = (⟨false⟩, []) ∧
    BTLEConnection.disconnect (BTLEConnection.disconnect c).1 =
      ((BTLEConnection.disconnect c).1, []) ∧
    BTLEConnection.delDunder c = BTLEConnection.disconnect c := by
  obtain ⟨b⟩ := c
  cases b <;>
    simp [BTLEConnection.exitContext, BTLEConnection.disconnect,
          BTLEConnection.delDunder]

/-- C7 witness: the disconnect-discipline theorem applied to a concrete
connected session exiting with an error — the link is released. -/
theorem C7_witness :
    (BTLEConnection.exitContext ⟨true⟩ (some .dpgCommandRead)).1.conn =
      false :=
  (C7_disconnect_discipline ⟨true⟩ .dpgCommandRead).1

/-- C8 counterexample: move_up issued while a movement is already running
(superseding request) ends with manual_height_change = false — the
stop_movement performed inside _move_to_raw clears the flag that move_up had
just set — so target_height reports the cm target (64) instead of only the
direction. -/
theorem C8_counterexample :
    (move_up superDesk).toOption.map
        (fun r => (r.1.manual_height_change, r.1.target, r.2)) =
      some (false, some ⟨6400⟩, true) ∧
    (move_up superDesk).toOption.map (fun r => (target_height r.1).toOption) =
      some (some (some 64, some true)) := by
  have h1 : move_up superDesk =
      .ok ({ superDesk with manual_height_change := false,
                            target := some ⟨6400⟩, running := true,
                            stop_timer := some (.armed MOVE_TIMER_TIMEOUT) },
           true) := by
    rw [move_up_eq superDesk ⟨0⟩ rfl, raw_from_cm_offset0_max,
        move_to_raw_running { superDesk with manual_height_change := true }
          ⟨⟨50⟩, 1⟩ 6400 (.armed MOVE_TIMER_TIMEOUT) rfl rfl rfl,
        if_neg (by decide)]
  have hdir : (decide ((6400 : Int) > 50)) = true := by decide
  have h2 : target_height
      { superDesk with manual_height_change := false,
                       target := some ⟨6400⟩, running := true,
                       stop_timer := some (.armed MOVE_TIMER_TIMEOUT) } =
      .ok (some 64, some true) := by
    rw [target_height_running
          { superDesk with manual_height_change := false,
                           target := some ⟨6400⟩, running := true,
                           stop_timer := some (.armed MOVE_TIMER_TIMEOUT) }
          ⟨6400⟩ ⟨⟨50⟩, 1⟩ rfl rfl rfl]
    simp [cm_raw_6400, hdir]
  rw [h1]
  exact ⟨rfl, congrArg some (congrArg Except.toOption h2)⟩

/-- C8 amended: move_up and move_down target the configured extreme — the
requested cm value is the persisted offset plus HEIGHT_MAX (resp.
HEIGHT_MIN), converted back through the offset to the raw target — and when
they start from Idle the movement runs with manual_height_change = true, so
target_height reports no cm value, only the direction; but when the manual
request supersedes an already-running movement, the stop performed inside
_move_to_raw clears the manual flag, the superseding movement runs with
manual_height_change = false, and target_height reports the cm target. -/
theorem C8_manual_moves (s : LinakDesk) (off : DeskPosition)
    (hs_ : HeightSpeed) (ts : TimerState)
    (hoff : s.desk_offset = some off) (hh : s.height_speed = some hs_)
    (hup : 10 ≤ (DeskPosition.raw_from_cm (off.cm + HEIGHT_MAX - off.cm) -
                 hs_.height.raw).natAbs)
    (hdn : 10 ≤ (DeskPosition.raw_from_cm (off.cm + HEIGHT_MIN - off.cm) -
                 hs_.height.raw).natAbs) :
    (s.running = false →
       move_up s =
         .ok ({ s with manual_height_change := true,
                       target := some ⟨DeskPosition.raw_from_cm
                                        (off.cm + HEIGHT_MAX - off.cm)⟩,
                       running := true,
                       stop_timer := some (.armed MOVE_TIMER_TIMEOUT) },
              true) ∧
       move_down s =
         .ok ({ s with manual_height_change := true,
                       target := some ⟨DeskPosition.raw_from_cm
                                        (off.cm + HEIGHT_MIN - off.cm)⟩,
                       running := true,
                       stop_timer := some (.armed MOVE_TIMER_TIMEOUT) },
              true) ∧
       target_height
           { s with manual_height_change := true,
                    target := some ⟨DeskPosition.raw_from_cm
                                     (off.cm + HEIGHT_MAX - off.cm)⟩,
                    running := true,
                    stop_timer := some (.armed MOVE_TIMER_TIMEOUT) } =
         .ok (none, some (decide (DeskPosition.raw_from_cm
               (off.cm + HEIGHT_MAX - off.cm) > hs_.height.raw)))) ∧
    (s.running = true → s.stop_timer = some ts →
       move_up s =
         .ok ({ s with manual_height_change := false,
                       target := some ⟨DeskPosition.raw_from_cm
                                        (off.cm + HEIGHT_MAX - off.cm)⟩,
                       running := true,
                       stop_timer := some (.armed MOVE_TIMER_TIMEOUT) },
              true) ∧
       target_height
           { s with manual_height_change := false,
                    target := some ⟨DeskPosition.raw_from_cm
                                     (off.cm + HEIGHT_MAX - off.cm)⟩,
                    running := true,
                    stop_timer := some (.armed MOVE_TIMER_TIMEOUT) } =
         .ok (some (DeskPosition.cm ⟨DeskPosition.raw_from_cm
                     (off.cm + HEIGHT_MAX - off.cm)⟩),
              some (decide (DeskPosition.raw_from_cm
                     (off.cm + HEIGHT_MAX - off.cm) > hs_.height.raw)))) := by
  constructor
  · intro hidle
    refine ⟨?_, ?_, ?_⟩
    · rw [move_up_eq s off hoff,
          move_to_raw_idle { s with manual_height_change := true } hs_
            (DeskPosition.raw_from_cm (off.cm + HEIGHT_MAX - off.cm))
            hidle hh,
          if_neg (not_lt.mpr hup)]
    · rw [move_down_eq s off hoff,
          move_to_raw_idle { s with manual_height_change := true } hs_
            (DeskPosition.raw_from_cm (off.cm + HEIGHT_MIN - off.cm))
            hidle hh,
          if_neg (not_lt.mpr hdn)]
    · rw [target_height_running
            { s with manual_height_change := true,
                     target := some ⟨DeskPosition.raw_from_cm
                                      (off.cm + HEIGHT_MAX - off.cm)⟩,
                     running := true,
                     stop_timer := some (.armed MOVE_TIMER_TIMEOUT) }
            ⟨DeskPosition.raw_from_cm (off.cm + HEIGHT_MAX - off.cm)⟩
            hs_ rfl rfl hh]
      simp
  · intro hrun htimer
    constructor
    · rw [move_up_eq s off hoff,
          move_to_raw_running { s with manual_height_change := true } hs_
            (DeskPosition.raw_from_cm (off.cm + HEIGHT_MAX - off.cm))
            ts hrun htimer hh,
          if_neg (not_lt.mpr hup)]
    · rw [target_height_running
            { s with manual_height_change := false,
                     target := some ⟨DeskPosition.raw_from_cm
                                      (off.cm + HEIGHT_MAX - off.cm)⟩,
                     running := true,
                     stop_timer := some (.armed MOVE_TIMER_TIMEOUT) }
            ⟨DeskPosition.raw_from_cm (off.cm + HEIGHT_MAX - off.cm)⟩
            hs_ rfl rfl hh]
      simp

/-- C8 witness: the manual-move theorem applied to the concrete idle desk:
move_up starts a movement with the manual flag set and the polling thread
started. -/
theorem C8_witness :
    (move_up idleDesk).toOption.map
        (fun r => (r.1.manual_height_change, r.1.running, r.2)) =
      some (true, true, true) := by
  rw [((C8_manual_moves idleDesk ⟨0⟩ ⟨⟨50⟩, 1⟩ (.armed MOVE_TIMER_TIMEOUT)
        rfl rfl (by rw [raw_from_cm_offset0_max]; decide)
        (by rw [raw_from_cm_offset0_min]; decide)).1 rfl).1]
  rfl

/-- C9: move_to_fav with any slot other than 1 or 2 fails immediately — no
transport call, no state change — but it raises DPGCommandReadError, the
same exception class used for protocol-decode failures and accessor
timeouts, not the dedicated WrongFavoriteNumber class that linak_device.py
declares and never raises. -/
theorem C9_invalid_slot (fav : Int) (s : LinakDesk)
    (h1 : fav ≠ 1) (h2 : fav ≠ 2) :
    move_to_fav fav s = .error .dpgCommandRead ∧
    PyError.dpgCommandRead ≠ PyError.wrongFavoriteNumber := by
  refine ⟨?_, by decide⟩
  simp [move_to_fav, h1, h2]

/-- C9 witness: the invalid-slot theorem applied to slot 3 on the fresh
desk. -/
theorem C9_witness :
    move_to_fav 3 LinakDesk.init = .error .dpgCommandRead ∧
    PyError.dpgCommandRead ≠ PyError.wrongFavoriteNumber :=
  C9_invalid_slot 3 LinakDesk.init (by decide) (by decide)

/-- C10: current_height issues a telemetry read only when no movement is
running — while a movement is in progress it returns the cached sample with
no transport operation and an unchanged state; when idle it performs exactly
one characteristic read of the reference-output handle and stores the
decoded sample. -/
theorem C10_current_height (s : LinakDesk) (hsc hs_ : HeightSpeed)
    (readBytes : List Nat) :
    (s.running = true → s.height_speed = some hsc →
       current_height readBytes s = .ok (hsc.height, s, [])) ∧
    (s.running = false → HeightSpeed.from_bytes readBytes = .ok hs_ →
       current_height readBytes s =
         .ok (hs_.height, { s with height_speed := some hs_ },
              [.read REFERENCE_OUTPUT_HANDLE])) := by
  constructor
  · intro hr hh
    simp [current_height, wait_for_variable, hr, hh]
  · intro hr hd
    simp [current_height, query_height_speed, wait_for_variable, hr, hd]

/-- C10 witness: while the concrete desk is moving, current_height returns
the cached height raw 50 with no transport operation, leaving the state
unchanged. -/
theorem C10_witness :
    current_height [12, 0, 0, 0] (movingDesk 100 50) =
      .ok (⟨50⟩, movingDesk 100 50, []) :=
  (C10_current_height (movingDesk 100 50) ⟨⟨50⟩, 1⟩ ⟨⟨50⟩, 1⟩
    [12, 0, 0, 0]).1 rfl rfl

end LinakBtDesk
